import Mathlib

/- Shallow embedding of the goxkit/logging repository: the zap logger
builders (zap package), the factory (logging.go NewLogger), the OTLP
backend (otlp/otlp.go Install) and the noop backend (noop Install).
External collaborators (the goxkit/configs data model, the zap encoder
configurations, the otlploggrpc exporter constructor and the gRPC dial
helper) are modelled by their observable construction data; fallible
external calls are oracles supplied through a World record. -/

namespace Goxkit

/-- Deployment environments from the external goxkit/configs package:
constants LocalEnv, DevelopmentEnv, QaEnv, StagingEnv, ProductionEnv,
UnknownEnv. -/
inductive Environment
  | LocalEnv
  | DevelopmentEnv
  | QaEnv
  | StagingEnv
  | ProductionEnv
  | UnknownEnv
  deriving DecidableEq

/-- String rendering of an environment (configs Environment.String). -/
def Environment.str : Environment → String
  | .LocalEnv => "local"
  | .DevelopmentEnv => "development"
  | .QaEnv => "qa"
  | .StagingEnv => "staging"
  | .ProductionEnv => "production"
  | .UnknownEnv => "unknown"

/-- Configured log level from goxkit/configs: the five named constants
DEBUG, INFO, WARN, ERROR, PANIC, plus a constructor standing for any
other value of the carrier type (the switch in mapZapLogLevel has a
default branch for those). -/
inductive ConfigLogLevel
  | DEBUG
  | INFO
  | WARN
  | ERROR
  | PANIC
  | unrecognized (code : Nat)
  deriving DecidableEq

/-- The fields of configs.AppConfigs read by this repository. -/
structure AppConfigs where
  name : String
  namespaceName : String
  environment : Environment
  logLevel : ConfigLogLevel
  deriving DecidableEq

/-- The fields of configs.OTLPConfigs read by this repository. -/
structure OTLPConfigs where
  enabled : Bool
  endpoint : String
  deriving DecidableEq

/-- An opaque gRPC client connection handle, identified by a token. -/
structure GrpcConn where
  id : Nat
  deriving DecidableEq

/-- zap time encoders used by the source (production default is epoch;
the source always overrides to ISO-8601). -/
inductive TimeEncoder
  | epochTime
  | iso8601
  deriving DecidableEq

/-- zap level encoders: production default is lowercase plain text,
development default is capital plain text, and CapitalColorLevelEncoder
emits ANSI color escapes. -/
inductive LevelEncoder
  | lowercaseLevel
  | capitalLevel
  | capitalColorLevel
  deriving DecidableEq

/-- The encoder-configuration fields this repository touches. -/
structure EncoderConfig where
  encodeTime : TimeEncoder
  encodeLevel : LevelEncoder
  deriving DecidableEq

/-- zap.NewProductionEncoderConfig: epoch time, lowercase levels. -/
def NewProductionEncoderConfig : EncoderConfig :=
  { encodeTime := .epochTime, encodeLevel := .lowercaseLevel }

/-- zap.NewDevelopmentEncoderConfig: ISO-8601 time, capital levels. -/
def NewDevelopmentEncoderConfig : EncoderConfig :=
  { encodeTime := .iso8601, encodeLevel := .capitalLevel }

/-- A zapcore encoder: JSON (structured) or console (human readable),
carrying the configuration it was built from (Go passes the config by
value, so later mutations do not affect an already built encoder). -/
inductive Encoder
  | json (cfg : EncoderConfig)
  | console (cfg : EncoderConfig)
  deriving DecidableEq

/-- The level encoder selected by an encoder. -/
def Encoder.levelEncoder : Encoder → LevelEncoder
  | .json cfg => cfg.encodeLevel
  | .console cfg => cfg.encodeLevel

/-- zapcore.Level severities. -/
inductive ZapLevel
  | debugLevel
  | infoLevel
  | warnLevel
  | errorLevel
  | dpanicLevel
  | panicLevel
  | fatalLevel
  deriving DecidableEq

/-- Write sinks used by the source (only os.Stdout appears). -/
inductive Sink
  | stdout
  deriving DecidableEq

/-- Construction-time error values; kept opaque (a message) so that
propagating one unchanged models returning the error unwrapped. -/
abbrev Err := String

/-- Options of the otlploggrpc exporter constructor that appear in this
repository (current and historical versions). -/
inductive ExporterOption
  | withGRPCConn (conn : GrpcConn)
  | withEndpoint (endpoint : String)
  | withReconnectionPeriod (millis : Nat)
  | withTimeout (millis : Nat)
  | withCompressor (compressor : String)
  | withInsecure
  deriving DecidableEq

/-- A constructed OTLP log exporter, identified by the options it was
constructed with. -/
structure Exporter where
  options : List ExporterOption
  deriving DecidableEq

/-- sdklog processors used by the source (batch processor only). -/
inductive Processor
  | batch (exp : Exporter)
  deriving DecidableEq

/-- A resource attribute (all attributes the current source attaches are
string valued). -/
inductive Attribute
  | str (key value : String)
  deriving DecidableEq

/-- An OpenTelemetry resource: schema URL plus attributes. -/
structure Resource where
  schemaURL : String
  attributes : List Attribute
  deriving DecidableEq

/-- An sdklog LoggerProvider, identified by its processors and resource
(none models the provider default resource when no WithResource option
is given). -/
structure LoggerProvider where
  processors : List Processor
  resource : Option Resource
  deriving DecidableEq

/-- sdklog.NewLoggerProvider() with no options: zero processors. -/
def newLoggerProviderNoOptions : LoggerProvider :=
  { processors := [], resource := none }

/-- Options of the otelzap bridge core constructor used by the source. -/
inductive OtelZapOption
  | withLoggerProvider (provider : LoggerProvider)
  deriving DecidableEq

/-- A zapcore core: a leveled encoder core over a sink, the otelzap
bridge core, or a tee of two cores (the source only ever tees two). -/
inductive ZCore
  | core (encoder : Encoder) (sink : Sink) (minLevel : ZapLevel)
  | otelCore (scopeName : String) (options : List OtelZapOption)
  | tee (first second : ZCore)
  deriving DecidableEq

/-- zap.New options used by the source. -/
inductive ZapOption
  | addCaller
  | addStacktrace (level : ZapLevel)
  deriving DecidableEq

/-- A constructed zap logger: its core tree, its construction options
and its name (from .Named). -/
structure ZapLogger where
  core : ZCore
  options : List ZapOption
  name : String
  deriving DecidableEq

/-- The fields of the shared configs.Configs object this repository
reads or writes. -/
structure Configs where
  appConfigs : AppConfigs
  otlpConfigs : OTLPConfigs
  otlpExporterConn : Option GrpcConn
  loggerProvider : Option LoggerProvider
  logger : Option ZapLogger
  deriving DecidableEq

/-- The process-wide global telemetry registry (go.opentelemetry.io
otel/log/global): a single mutable provider slot. -/
structure GlobalState where
  loggerProvider : Option LoggerProvider
  deriving DecidableEq

/-- Oracles for the fallible external calls made by otlp Install:
the result of the external gRPC dial helper
(otlpgrpc.NewExporterGRPCClient, from goxkit/otel) and whether the
exporter constructor (otlploggrpc.New) fails. -/
structure World where
  dial : Except Err GrpcConn
  exporterErr : Option Err

/-- otlploggrpc.New as seen by this repository: it either fails with an
external error or yields an exporter carrying exactly the options it
was handed. -/
def otlploggrpcNew (w : World) (options : List ExporterOption) :
    Except Err Exporter :=
  match w.exporterErr with
  | some e => .error e
  | none => .ok { options := options }

/-- mapZapLogLevel from the zap package: switch on e.LogLevel with the
five named constants and a default branch returning InfoLevel. -/
def mapZapLogLevel (e : AppConfigs) : ZapLevel :=
  match e.logLevel with
  | .DEBUG => .debugLevel
  | .INFO => .infoLevel
  | .WARN => .warnLevel
  | .ERROR => .errorLevel
  | .PANIC => .panicLevel
  | .unrecognized _ => .infoLevel

/-- NewZapLogger from the zap package: production encoder config with
ISO-8601 time, JSON encoder by default; for Development, QA, Local or
Unknown environments switch to CapitalColorLevelEncoder and a console
encoder; tee a leveled stdout core with the otelzap bridge core (built
from the service name and the provider only), wrap with AddCaller and
AddStacktrace(Error), and name the logger. Always returns a nil
error. -/
def NewZapLogger (cfgs : Configs) (provider : LoggerProvider) :
    ZapLogger × Option Err :=
  let encoderCfg := { NewProductionEncoderConfig with encodeTime := .iso8601 }
  let fmtEncoder := Encoder.json encoderCfg
  let fmtEncoder :=
    if cfgs.appConfigs.environment = .DevelopmentEnv ∨
        cfgs.appConfigs.environment = .QaEnv ∨
        cfgs.appConfigs.environment = .LocalEnv ∨
        cfgs.appConfigs.environment = .UnknownEnv then
      Encoder.console { encoderCfg with encodeLevel := .capitalColorLevel }
    else
      fmtEncoder
  let minLevel := mapZapLogLevel cfgs.appConfigs
  let defaultCore := ZCore.core fmtEncoder .stdout minLevel
  let otelCore :=
    ZCore.otelCore cfgs.appConfigs.name [.withLoggerProvider provider]
  let combinedCore := ZCore.tee defaultCore otelCore
  let logger : ZapLogger :=
    { core := combinedCore
      options := [.addCaller, .addStacktrace .errorLevel]
      name := cfgs.appConfigs.name }
  (logger, none)

/-- NewStdoutZapLogger from the zap package: for Production or Staging,
a JSON encoder from the production config with ISO-8601 time; otherwise
a console encoder from the development config with ISO-8601 time plus
CapitalColorLevelEncoder; one leveled stdout core, named logger, stored
back into cfgs.Logger. Always returns a nil error. -/
def NewStdoutZapLogger (cfgs : Configs) : Configs × ZapLogger × Option Err :=
  let zapLogLevel := mapZapLogLevel cfgs.appConfigs
  if cfgs.appConfigs.environment = .ProductionEnv ∨
      cfgs.appConfigs.environment = .StagingEnv then
    let logConfig := { NewProductionEncoderConfig with encodeTime := .iso8601 }
    let encoder := Encoder.json logConfig
    let logger : ZapLogger :=
      { core := ZCore.core encoder .stdout zapLogLevel
        options := []
        name := cfgs.appConfigs.name }
    ({ cfgs with logger := some logger }, logger, none)
  else
    let logConfig :=
      { NewDevelopmentEncoderConfig with
          encodeTime := .iso8601, encodeLevel := .capitalColorLevel }
    let consoleEncoder := Encoder.console logConfig
    let logger : ZapLogger :=
      { core := ZCore.core consoleEncoder .stdout zapLogLevel
        options := []
        name := cfgs.appConfigs.name }
    ({ cfgs with logger := some logger }, logger, none)

/-- The outcome of a backend builder run: the global registry and the
shared configs after the run, plus the two-value Go return (logger
pointer, error). -/
structure BuildResult where
  globalState : GlobalState
  cfgs : Configs
  logger : Option ZapLogger
  err : Option Err
  deriving DecidableEq

/-- noop Install: build sdklog.NewLoggerProvider() with no options,
store it on cfgs.LoggerProvider, then delegate to NewStdoutZapLogger.
The global registry is not touched. -/
def noopInstall (g : GlobalState) (cfgs : Configs) : BuildResult :=
  let provider := newLoggerProviderNoOptions
  let cfgs := { cfgs with loggerProvider := some provider }
  match NewStdoutZapLogger cfgs with
  | (cfgs1, logger, errOut) =>
    { globalState := g, cfgs := cfgs1, logger := some logger, err := errOut }

/-- semconv.SchemaURL for the semconv version imported by otlp.go. -/
def semconvSchemaURL : String := "https://opentelemetry.io/schemas/1.28.0"

/-- The LoggerProvider built by otlp Install: one batch processor over
the exporter, and a resource tagging service name, service namespace,
the environment string twice (service.environment and the deployment
environment attribute) and the telemetry SDK language marker. -/
def otlpLoggerProvider (cfgs : Configs) (processor : Processor) :
    LoggerProvider :=
  { processors := [processor]
    resource := some
      { schemaURL := semconvSchemaURL
        attributes :=
          [ .str "service.name" cfgs.appConfigs.name
          , .str "service.namespace" cfgs.appConfigs.namespaceName
          , .str "service.environment" cfgs.appConfigs.environment.str
          , .str "deployment.environment.name" cfgs.appConfigs.environment.str
          , .str "telemetry.sdk.language" "go" ] } }

/-- otlp Install: reuse the connection cached on cfgs.OTLPExporterConn
if present, otherwise dial a new one and write it back; abort with the
unwrapped error and a nil logger if the dial fails. Construct the
exporter over that connection (its sole option), aborting likewise on
failure. Build the batch processor and tagged provider, register the
provider in the global registry, store it on cfgs.LoggerProvider, and
finish with NewZapLogger. -/
def otlpInstall (w : World) (g : GlobalState) (cfgs : Configs) : BuildResult :=
  let acquired : Except Err (GrpcConn × Configs) :=
    match cfgs.otlpExporterConn with
    | some conn => .ok (conn, cfgs)
    | none =>
      match w.dial with
      | .error e => .error e
      | .ok conn => .ok (conn, { cfgs with otlpExporterConn := some conn })
  match acquired with
  | .error e => { globalState := g, cfgs := cfgs, logger := none, err := some e }
  | .ok (conn, cfgs1) =>
    match otlploggrpcNew w [.withGRPCConn conn] with
    | .error e =>
      { globalState := g, cfgs := cfgs1, logger := none, err := some e }
    | .ok exp =>
      let processor := Processor.batch exp
      let provider := otlpLoggerProvider cfgs1 processor
      let g1 : GlobalState := { loggerProvider := some provider }
      let cfgs2 := { cfgs1 with loggerProvider := some provider }
      match NewZapLogger cfgs2 provider with
      | (logger, errOut) =>
        { globalState := g1, cfgs := cfgs2, logger := some logger, err := errOut }

/-- NewLogger from logging.go: delegate to the OTLP backend when
cfgs.OTLPConfigs.Enabled, otherwise to the noop backend. -/
def NewLogger (w : World) (g : GlobalState) (cfgs : Configs) : BuildResult :=
  if cfgs.otlpConfigs.enabled then
    otlpInstall w g cfgs
  else
    noopInstall g cfgs

/-- Observation: the encoder of the stdout core of a logger core tree
(the first component of a tee, or a lone leveled core). -/
def ZCore.stdoutEncoder : ZCore → Option Encoder
  | .core enc _ _ => some enc
  | .tee (.core enc _ _) _ => some enc
  | _ => none

/-- Observation: the minimum level of the stdout core of a logger core
tree. -/
def ZCore.stdoutMinLevel : ZCore → Option ZapLevel
  | .core _ _ lvl => some lvl
  | .tee (.core _ _ lvl) _ => some lvl
  | _ => none

/-- Observation: the export-branch core of a teed logger core tree. -/
def ZCore.exportCore : ZCore → Option ZCore
  | .tee _ second => some second
  | _ => none

/-- Observation: the construction options of the exporter wrapped by
the provider a build stored on the configs object. -/
def exporterOptions (r : BuildResult) : Option (List ExporterOption) :=
  match r.cfgs.loggerProvider with
  | some p =>
    match p.processors with
    | [Processor.batch exp] => some exp.options
    | _ => none
  | none => none

/-- Observation: the resource attributes of an optional provider. -/
def providerAttributes (p : Option LoggerProvider) : List Attribute :=
  match p with
  | some provider =>
    match provider.resource with
    | some res => res.attributes
    | none => []
  | none => []

/-- A concrete configs value for witnesses. -/
def mkConfigs (env : Environment) (lvl : ConfigLogLevel) (enabled : Bool)
    (conn : Option GrpcConn) : Configs :=
  { appConfigs :=
      { name := "app", namespaceName := "ns", environment := env
        logLevel := lvl }
    otlpConfigs := { enabled := enabled, endpoint := "localhost:4317" }
    otlpExporterConn := conn
    loggerProvider := none
    logger := none }

/-- A global registry with an empty provider slot, for witnesses. -/
def emptyGlobal : GlobalState := { loggerProvider := none }

/-- A world whose external calls all succeed, for witnesses. -/
def sampleWorldOk : World := { dial := .ok { id := 1 }, exporterErr := none }

/-- C2: mapZapLogLevel is a total function that maps each of the five
recognized configured levels (DEBUG, INFO, WARN, ERROR, PANIC) to the
corresponding zap severity, and every other input value to InfoLevel,
never an error. -/
theorem c2_level_mapper_total_default (a : AppConfigs) :
    (a.logLevel = .DEBUG → mapZapLogLevel a = .debugLevel) ∧
    (a.logLevel = .INFO → mapZapLogLevel a = .infoLevel) ∧
    (a.logLevel = .WARN → mapZapLogLevel a = .warnLevel) ∧
    (a.logLevel = .ERROR → mapZapLogLevel a = .errorLevel) ∧
    (a.logLevel = .PANIC → mapZapLogLevel a = .panicLevel) ∧
    (∀ code, a.logLevel = .unrecognized code → mapZapLogLevel a = .infoLevel) := by
  refine ⟨?_, ?_, ?_, ?_, ?_, ?_⟩
  · intro h; simp [mapZapLogLevel, h]
  · intro h; simp [mapZapLogLevel, h]
  · intro h; simp [mapZapLogLevel, h]
  · intro h; simp [mapZapLogLevel, h]
  · intro h; simp [mapZapLogLevel, h]
  · intro code h; simp [mapZapLogLevel, h]

theorem c2_level_mapper_total_default_witness :
    (mkConfigs .LocalEnv (.unrecognized 7) false none).appConfigs.logLevel =
      ConfigLogLevel.unrecognized 7 ∧
    mapZapLogLevel (mkConfigs .LocalEnv (.unrecognized 7) false none).appConfigs =
      .infoLevel :=
  ⟨by decide,
   (c2_level_mapper_total_default
      (mkConfigs .LocalEnv (.unrecognized 7) false none).appConfigs).2.2.2.2.2
     7 (by decide)⟩

/-- C3: NewLogger delegates to the OTLP backend builder exactly when
cfgs.OTLPConfigs.Enabled is true and to the noop backend builder
otherwise, returning whatever the chosen builder returns. -/
theorem c3_factory_branching (w : World) (g : GlobalState) (cfgs : Configs) :
    (cfgs.otlpConfigs.enabled = true → NewLogger w g cfgs = otlpInstall w g cfgs) ∧
    (cfgs.otlpConfigs.enabled = false → NewLogger w g cfgs = noopInstall g cfgs) := by
  constructor <;> intro h <;> simp [NewLogger, h]

theorem c3_factory_branching_witness :
    (mkConfigs .ProductionEnv .INFO true none).otlpConfigs.enabled = true ∧
    NewLogger sampleWorldOk emptyGlobal (mkConfigs .ProductionEnv .INFO true none) =
      otlpInstall sampleWorldOk emptyGlobal (mkConfigs .ProductionEnv .INFO true none) ∧
    NewLogger sampleWorldOk emptyGlobal (mkConfigs .ProductionEnv .INFO false none) =
      noopInstall emptyGlobal (mkConfigs .ProductionEnv .INFO false none) :=
  ⟨by decide,
   (c3_factory_branching sampleWorldOk emptyGlobal
      (mkConfigs .ProductionEnv .INFO true none)).1 (by decide),
   (c3_factory_branching sampleWorldOk emptyGlobal
      (mkConfigs .ProductionEnv .INFO false none)).2 (by decide)⟩

/-- C9: in the combined logger built by NewZapLogger, the minimum
severity derived from the configured log level is applied only to the
stdout core of the tee; the export-branch core is built from the
service name and provider alone, so it is independent of the configured
log level. -/
theorem c9_export_branch_level_independent (cfgs : Configs)
    (provider : LoggerProvider) (lvl1 lvl2 : ConfigLogLevel) :
    ZCore.exportCore (NewZapLogger
        { cfgs with appConfigs := { cfgs.appConfigs with logLevel := lvl1 } }
        provider).1.core =
      ZCore.exportCore (NewZapLogger
        { cfgs with appConfigs := { cfgs.appConfigs with logLevel := lvl2 } }
        provider).1.core ∧
    ZCore.exportCore (NewZapLogger cfgs provider).1.core =
      some (ZCore.otelCore cfgs.appConfigs.name
        [OtelZapOption.withLoggerProvider provider]) ∧
    ZCore.stdoutMinLevel (NewZapLogger cfgs provider).1.core =
      some (mapZapLogLevel cfgs.appConfigs) := by
  refine ⟨?_, ?_, ?_⟩ <;>
    simp [NewZapLogger, ZCore.exportCore, ZCore.stdoutMinLevel]

/-- C10: the two zap logger builders are infallible (their error
component is always nil), hence the noop path of NewLogger never
returns a non-nil error. -/
theorem c10_builders_infallible (cfgs : Configs) (provider : LoggerProvider)
    (w : World) (g : GlobalState) :
    (NewZapLogger cfgs provider).2 = none ∧
    (NewStdoutZapLogger cfgs).2.2 = none ∧
    (cfgs.otlpConfigs.enabled = false → (NewLogger w g cfgs).err = none) := by
  have hstd : ∀ c : Configs, (NewStdoutZapLogger c).2.2 = none := by
    intro c
    simp only [NewStdoutZapLogger]
    split <;> rfl
  refine ⟨rfl, hstd cfgs, ?_⟩
  intro h
  simp [NewLogger, h, noopInstall, hstd]

theorem c10_builders_infallible_witness :
    (mkConfigs .DevelopmentEnv .INFO false none).otlpConfigs.enabled = false ∧
    (NewLogger sampleWorldOk emptyGlobal
      (mkConfigs .DevelopmentEnv .INFO false none)).err = none :=
  ⟨by decide,
   (c10_builders_infallible (mkConfigs .DevelopmentEnv .INFO false none)
      newLoggerProviderNoOptions sampleWorldOk emptyGlobal).2.2 (by decide)⟩

/-- C1: for Local, Development, QA or Unknown environments both logger
builders select a console encoder with colorized severity labels and
ISO-8601 timestamps; for Staging or Production both select a JSON
encoder with ISO-8601 timestamps and plain lowercase severity, and the
colorized level encoder is never selected for Staging or Production. -/
theorem c1_environment_formatting (cfgs : Configs) (provider : LoggerProvider) :
    ((cfgs.appConfigs.environment = .LocalEnv ∨
      cfgs.appConfigs.environment = .DevelopmentEnv ∨
      cfgs.appConfigs.environment = .QaEnv ∨
      cfgs.appConfigs.environment = .UnknownEnv) →
      (ZCore.stdoutEncoder (NewZapLogger cfgs provider).1.core =
          some (.console { encodeTime := .iso8601, encodeLevel := .capitalColorLevel }) ∧
        ZCore.stdoutEncoder (NewStdoutZapLogger cfgs).2.1.core =
          some (.console { encodeTime := .iso8601, encodeLevel := .capitalColorLevel }))) ∧
    ((cfgs.appConfigs.environment = .StagingEnv ∨
      cfgs.appConfigs.environment = .ProductionEnv) →
      (ZCore.stdoutEncoder (NewZapLogger cfgs provider).1.core =
          some (.json { encodeTime := .iso8601, encodeLevel := .lowercaseLevel }) ∧
        ZCore.stdoutEncoder (NewStdoutZapLogger cfgs).2.1.core =
          some (.json { encodeTime := .iso8601, encodeLevel := .lowercaseLevel }) ∧
        (ZCore.stdoutEncoder (NewZapLogger cfgs provider).1.core).map
            Encoder.levelEncoder ≠ some .capitalColorLevel ∧
        (ZCore.stdoutEncoder (NewStdoutZapLogger cfgs).2.1.core).map
            Encoder.levelEncoder ≠ some .capitalColorLevel)) := by
  constructor
  · intro h
    rcases h with h | h | h | h <;>
      constructor <;>
        simp [NewZapLogger, NewStdoutZapLogger, ZCore.stdoutEncoder, h,
          NewProductionEncoderConfig, NewDevelopmentEncoderConfig]
  · intro h
    rcases h with h | h <;>
      refine ⟨?_, ?_, ?_, ?_⟩ <;>
        simp [NewZapLogger, NewStdoutZapLogger, ZCore.stdoutEncoder,
          Encoder.levelEncoder, h, NewProductionEncoderConfig,
          NewDevelopmentEncoderConfig]

theorem c1_environment_formatting_witness :
    ((mkConfigs .LocalEnv .INFO false none).appConfigs.environment = .LocalEnv ∨
      (mkConfigs .LocalEnv .INFO false none).appConfigs.environment = .DevelopmentEnv ∨
      (mkConfigs .LocalEnv .INFO false none).appConfigs.environment = .QaEnv ∨
      (mkConfigs .LocalEnv .INFO false none).appConfigs.environment = .UnknownEnv) ∧
    (ZCore.stdoutEncoder (NewZapLogger (mkConfigs .LocalEnv .INFO false none)
          newLoggerProviderNoOptions).1.core =
        some (.console { encodeTime := .iso8601, encodeLevel := .capitalColorLevel }) ∧
      ZCore.stdoutEncoder
          (NewStdoutZapLogger (mkConfigs .LocalEnv .INFO false none)).2.1.core =
        some (.console { encodeTime := .iso8601, encodeLevel := .capitalColorLevel })) ∧
    (ZCore.stdoutEncoder (NewZapLogger (mkConfigs .ProductionEnv .INFO false none)
          newLoggerProviderNoOptions).1.core =
        some (.json { encodeTime := .iso8601, encodeLevel := .lowercaseLevel }) ∧
      ZCore.stdoutEncoder
          (NewStdoutZapLogger (mkConfigs .ProductionEnv .INFO false none)).2.1.core =
        some (.json { encodeTime := .iso8601, encodeLevel := .lowercaseLevel }) ∧
      (ZCore.stdoutEncoder (NewZapLogger (mkConfigs .ProductionEnv .INFO false none)
            newLoggerProviderNoOptions).1.core).map
          Encoder.levelEncoder ≠ some .capitalColorLevel ∧
      (ZCore.stdoutEncoder
          (NewStdoutZapLogger (mkConfigs .ProductionEnv .INFO false none)).2.1.core).map
          Encoder.levelEncoder ≠ some .capitalColorLevel) :=
  ⟨Or.inl rfl,
   (c1_environment_formatting (mkConfigs .LocalEnv .INFO false none)
      newLoggerProviderNoOptions).1 (Or.inl rfl),
   (c1_environment_formatting (mkConfigs .ProductionEnv .INFO false none)
      newLoggerProviderNoOptions).2 (Or.inr rfl)⟩

/-- C4: when a connection is cached on cfgs.OTLPExporterConn the OTLP
builder uses it (the exporter is built over it), keeps the slot
unchanged and never consults the dial oracle (runs identically in any
world with the same exporter outcome); when no connection is cached and
the dial succeeds, the new connection is written back into the slot
before the exporter is built and the exporter is built over it. -/
theorem c4_connection_reuse (w : World) (g : GlobalState) (cfgs : Configs) :
    (∀ conn, cfgs.otlpExporterConn = some conn →
      ((otlpInstall w g cfgs).cfgs.otlpExporterConn = some conn ∧
        (∀ w2 : World, w2.exporterErr = w.exporterErr →
          otlpInstall w2 g cfgs = otlpInstall w g cfgs) ∧
        (w.exporterErr = none →
          exporterOptions (otlpInstall w g cfgs) =
            some [.withGRPCConn conn]))) ∧
    (∀ conn, cfgs.otlpExporterConn = none → w.dial = .ok conn →
      ((otlpInstall w g cfgs).cfgs.otlpExporterConn = some conn ∧
        (w.exporterErr = none →
          exporterOptions (otlpInstall w g cfgs) =
            some [.withGRPCConn conn]))) := by
  constructor
  · intro conn h
    refine ⟨?_, ?_, ?_⟩
    · rcases hw : w.exporterErr with _ | e <;>
        simp [otlpInstall, otlploggrpcNew, h, hw]
    · intro w2 hw2
      simp [otlpInstall, otlploggrpcNew, h, hw2]
    · intro hw
      simp [otlpInstall, otlploggrpcNew, h, hw, exporterOptions,
        otlpLoggerProvider]
  · intro conn h hd
    constructor
    · rcases hw : w.exporterErr with _ | e <;>
        simp [otlpInstall, otlploggrpcNew, h, hd, hw]
    · intro hw
      simp [otlpInstall, otlploggrpcNew, h, hd, hw, exporterOptions,
        otlpLoggerProvider]

theorem c4_connection_reuse_witness :
    (mkConfigs .ProductionEnv .INFO true (some { id := 5 })).otlpExporterConn =
      some { id := 5 } ∧
    (otlpInstall sampleWorldOk emptyGlobal
        (mkConfigs .ProductionEnv .INFO true (some { id := 5 }))).cfgs.otlpExporterConn =
      some { id := 5 } ∧
    exporterOptions (otlpInstall sampleWorldOk emptyGlobal
        (mkConfigs .ProductionEnv .INFO true (some { id := 5 }))) =
      some [.withGRPCConn { id := 5 }] ∧
    (otlpInstall sampleWorldOk emptyGlobal
        (mkConfigs .ProductionEnv .INFO true none)).cfgs.otlpExporterConn =
      some { id := 1 } :=
  ⟨by decide,
   ((c4_connection_reuse sampleWorldOk emptyGlobal
      (mkConfigs .ProductionEnv .INFO true (some { id := 5 }))).1
      { id := 5 } (by decide)).1,
   ((c4_connection_reuse sampleWorldOk emptyGlobal
      (mkConfigs .ProductionEnv .INFO true (some { id := 5 }))).1
      { id := 5 } (by decide)).2.2 (by decide),
   ((c4_connection_reuse sampleWorldOk emptyGlobal
      (mkConfigs .ProductionEnv .INFO true none)).2
      { id := 1 } (by decide) rfl).1⟩

/-- C5: all-or-nothing OTLP construction: a dial failure or an exporter
construction failure aborts the build with a nil logger and the error
propagated unchanged; the error component is nil exactly when a non-nil
logger is returned. -/
theorem c5_all_or_nothing (w : World) (g : GlobalState) (cfgs : Configs) :
    (∀ e, cfgs.otlpExporterConn = none → w.dial = .error e →
      (otlpInstall w g cfgs).logger = none ∧
        (otlpInstall w g cfgs).err = some e) ∧
    (∀ e conn, w.exporterErr = some e →
      (cfgs.otlpExporterConn = some conn ∨
        (cfgs.otlpExporterConn = none ∧ w.dial = .ok conn)) →
      (otlpInstall w g cfgs).logger = none ∧
        (otlpInstall w g cfgs).err = some e) ∧
    ((otlpInstall w g cfgs).err = none ↔
      (otlpInstall w g cfgs).logger ≠ none) := by
  refine ⟨?_, ?_, ?_⟩
  · intro e hc hd
    simp [otlpInstall, hc, hd]
  · intro e conn hw hcase
    rcases hcase with hc | ⟨hc, hd⟩
    · simp [otlpInstall, otlploggrpcNew, hc, hw]
    · simp [otlpInstall, otlploggrpcNew, hc, hd, hw]
  · rcases hc : cfgs.otlpExporterConn with _ | conn
    · rcases hd : w.dial with e | conn2
      · simp [otlpInstall, hc, hd]
      · rcases hw : w.exporterErr with _ | e <;>
          simp [otlpInstall, otlploggrpcNew, NewZapLogger, hc, hd, hw]
    · rcases hw : w.exporterErr with _ | e <;>
        simp [otlpInstall, otlploggrpcNew, NewZapLogger, hc, hw]

theorem c5_all_or_nothing_witness :
    ({ dial := .error "dial refused", exporterErr := none } : World).dial =
      .error "dial refused" ∧
    (mkConfigs .ProductionEnv .INFO true none).otlpExporterConn = none ∧
    (otlpInstall { dial := .error "dial refused", exporterErr := none }
        emptyGlobal (mkConfigs .ProductionEnv .INFO true none)).logger = none ∧
    (otlpInstall { dial := .error "dial refused", exporterErr := none }
        emptyGlobal (mkConfigs .ProductionEnv .INFO true none)).err =
      some "dial refused" :=
  ⟨rfl, by decide,
   ((c5_all_or_nothing { dial := .error "dial refused", exporterErr := none }
      emptyGlobal (mkConfigs .ProductionEnv .INFO true none)).1
      "dial refused" (by decide) rfl).1,
   ((c5_all_or_nothing { dial := .error "dial refused", exporterErr := none }
      emptyGlobal (mkConfigs .ProductionEnv .INFO true none)).1
      "dial refused" (by decide) rfl).2⟩

/-- C7: whenever the OTLP builder succeeds, the provider registered in
the process-wide global slot is the one stored on cfgs.LoggerProvider,
it is present, and its resource attributes include the service name,
the service namespace, the environment string and the fixed telemetry
SDK language marker. -/
theorem c7_provider_tagging (w : World) (g : GlobalState) (cfgs : Configs) :
    (otlpInstall w g cfgs).err = none →
    ((otlpInstall w g cfgs).globalState.loggerProvider =
        (otlpInstall w g cfgs).cfgs.loggerProvider ∧
      (otlpInstall w g cfgs).cfgs.loggerProvider ≠ none ∧
      Attribute.str "service.name" cfgs.appConfigs.name ∈
        providerAttributes (otlpInstall w g cfgs).cfgs.loggerProvider ∧
      Attribute.str "service.namespace" cfgs.appConfigs.namespaceName ∈
        providerAttributes (otlpInstall w g cfgs).cfgs.loggerProvider ∧
      Attribute.str "service.environment" cfgs.appConfigs.environment.str ∈
        providerAttributes (otlpInstall w g cfgs).cfgs.loggerProvider ∧
      Attribute.str "telemetry.sdk.language" "go" ∈
        providerAttributes (otlpInstall w g cfgs).cfgs.loggerProvider) := by
  intro hsucc
  rcases hc : cfgs.otlpExporterConn with _ | conn
  · rcases hd : w.dial with e | conn2
    · simp [otlpInstall, hc, hd] at hsucc
    · rcases hw : w.exporterErr with _ | e
      · simp [otlpInstall, otlploggrpcNew, NewZapLogger, hc, hd, hw,
          otlpLoggerProvider, providerAttributes]
      · simp [otlpInstall, otlploggrpcNew, hc, hd, hw] at hsucc
  · rcases hw : w.exporterErr with _ | e
    · simp [otlpInstall, otlploggrpcNew, NewZapLogger, hc, hw,
        otlpLoggerProvider, providerAttributes]
    · simp [otlpInstall, otlploggrpcNew, hc, hw] at hsucc

theorem c7_provider_tagging_witness :
    (otlpInstall sampleWorldOk emptyGlobal
        (mkConfigs .ProductionEnv .INFO true none)).err = none ∧
    ((otlpInstall sampleWorldOk emptyGlobal
          (mkConfigs .ProductionEnv .INFO true none)).globalState.loggerProvider =
        (otlpInstall sampleWorldOk emptyGlobal
          (mkConfigs .ProductionEnv .INFO true none)).cfgs.loggerProvider ∧
      (otlpInstall sampleWorldOk emptyGlobal
          (mkConfigs .ProductionEnv .INFO true none)).cfgs.loggerProvider ≠ none ∧
      Attribute.str "service.name"
          (mkConfigs .ProductionEnv .INFO true none).appConfigs.name ∈
        providerAttributes (otlpInstall sampleWorldOk emptyGlobal
          (mkConfigs .ProductionEnv .INFO true none)).cfgs.loggerProvider ∧
      Attribute.str "service.namespace"
          (mkConfigs .ProductionEnv .INFO true none).appConfigs.namespaceName ∈
        providerAttributes (otlpInstall sampleWorldOk emptyGlobal
          (mkConfigs .ProductionEnv .INFO true none)).cfgs.loggerProvider ∧
      Attribute.str "service.environment"
          (mkConfigs .ProductionEnv .INFO true none).appConfigs.environment.str ∈
        providerAttributes (otlpInstall sampleWorldOk emptyGlobal
          (mkConfigs .ProductionEnv .INFO true none)).cfgs.loggerProvider ∧
      Attribute.str "telemetry.sdk.language" "go" ∈
        providerAttributes (otlpInstall sampleWorldOk emptyGlobal
          (mkConfigs .ProductionEnv .INFO true none)).cfgs.loggerProvider) :=
  ⟨by decide,
   c7_provider_tagging sampleWorldOk emptyGlobal
     (mkConfigs .ProductionEnv .INFO true none) (by decide)⟩

/-- C6 counterexample: on a concrete configuration the noop builder
leaves the process-wide global provider slot empty, so it does not
register the provider it constructs as the process-wide active
telemetry-log provider. -/
theorem c6_noop_counterexample :
    (noopInstall emptyGlobal
        (mkConfigs .DevelopmentEnv .INFO false none)).globalState.loggerProvider =
      none ∧
    (noopInstall emptyGlobal
        (mkConfigs .DevelopmentEnv .INFO false none)).cfgs.loggerProvider =
      some newLoggerProviderNoOptions := by
  decide

/-- C6 (amended): the noop builder constructs a provider with zero
processors, stores it on the configuration object rather than
registering it in the process-wide global slot (which it leaves
untouched), and delegates to the stdout builder for the returned
logger. -/
theorem c6_noop_provider_storage (g : GlobalState) (cfgs : Configs) :
    (noopInstall g cfgs).globalState = g ∧
    (noopInstall g cfgs).cfgs.loggerProvider = some newLoggerProviderNoOptions ∧
    newLoggerProviderNoOptions.processors = [] ∧
    (noopInstall g cfgs).logger =
      some (NewStdoutZapLogger
        { cfgs with loggerProvider := some newLoggerProviderNoOptions }).2.1 ∧
    (noopInstall g cfgs).err =
      (NewStdoutZapLogger
        { cfgs with loggerProvider := some newLoggerProviderNoOptions }).2.2 := by
  refine ⟨rfl, ?_, rfl, rfl, rfl⟩
  simp only [noopInstall, NewStdoutZapLogger]
  split <;> rfl

/-- C8 counterexample: on a concrete configuration with a cached
connection the OTLP builder constructs the exporter with the connection
as its single construction option; neither gzip compression nor a
timeout appears among the exporter construction options. -/
theorem c8_exporter_options_counterexample :
    exporterOptions (otlpInstall sampleWorldOk emptyGlobal
        (mkConfigs .ProductionEnv .INFO true (some { id := 1 }))) =
      some [ExporterOption.withGRPCConn { id := 1 }] ∧
    ExporterOption.withCompressor "gzip" ∉
      [ExporterOption.withGRPCConn ({ id := 1 } : GrpcConn)] ∧
    ExporterOption.withTimeout 10000 ∉
      [ExporterOption.withGRPCConn ({ id := 1 } : GrpcConn)] := by
  decide

/-- C8 (amended): the exporter is constructed over the reused or newly
created connection, and that connection is its sole construction
option; gzip compression and timeout are not among the exporter
construction options. -/
theorem c8_exporter_sole_option (w : World) (g : GlobalState) (cfgs : Configs)
    (conn : GrpcConn) :
    w.exporterErr = none →
    (cfgs.otlpExporterConn = some conn ∨
      (cfgs.otlpExporterConn = none ∧ w.dial = .ok conn)) →
    exporterOptions (otlpInstall w g cfgs) =
      some [ExporterOption.withGRPCConn conn] := by
  intro hw hcase
  rcases hcase with hc | ⟨hc, hd⟩
  · simp [otlpInstall, otlploggrpcNew, hc, hw, exporterOptions,
      otlpLoggerProvider]
  · simp [otlpInstall, otlploggrpcNew, hc, hd, hw, exporterOptions,
      otlpLoggerProvider]

theorem c8_exporter_sole_option_witness :
    sampleWorldOk.exporterErr = none ∧
    (mkConfigs .DevelopmentEnv .INFO true none).otlpExporterConn = none ∧
    exporterOptions (otlpInstall sampleWorldOk emptyGlobal
        (mkConfigs .DevelopmentEnv .INFO true none)) =
      some [ExporterOption.withGRPCConn { id := 1 }] :=
  ⟨by decide, by decide,
   c8_exporter_sole_option sampleWorldOk emptyGlobal
     (mkConfigs .DevelopmentEnv .INFO true none) { id := 1 } (by decide)
     (Or.inr ⟨by decide, rfl⟩)⟩

end Goxkit
